import Mathlib

/-!
Shallow embedding of the task-management REST backend
(src/backend/src/app.js) and proofs about its CRUD contract.

Modelling conventions:
* Request-body fields are JavaScript values: absent (undefined), null,
  or a string.  JS truthiness of `!title` (app.js line 55) is `truthy`.
* The mysql2 text-protocol escaping sends both undefined and null bind
  parameters as SQL NULL; strings are sent verbatim (`sqlOf`).
* The store is the `tasks` table of initDb (app.js lines 130-137):
  `id INT AUTO_INCREMENT PRIMARY KEY, title VARCHAR(255) NOT NULL,
  description TEXT, created_at TIMESTAMP DEFAULT CURRENT_TIMESTAMP`.
  Timestamps are an abstract monotone clock.  The AUTO_INCREMENT
  counter starts at 1, grows on insert and is never reset by delete.
* MySQL runs in its default strict mode: an UPDATE that would write
  NULL into the NOT NULL `title` column of a matched row fails and
  changes nothing.  The affected-row count reported to the handlers is
  the number of matched rows (the client library sets FOUND_ROWS).
* A path parameter such as `req.params.id` is a string; comparing it to
  the INT `id` column uses MySQL numeric coercion, modelled for the
  relevant inputs by taking the leading decimal digits (`mysqlIdOfString`).
* `Db.down detail` models a store that is unreachable or not yet
  initialized: every query against it raises an error whose detail text
  is `detail`; each handler catches it and answers a fixed generic 500.
-/

namespace TaskApp

/-- A JavaScript value as it can appear in a parsed JSON request body
field: missing (undefined), null, or a string. -/
inductive JsVal where
  | undef
  | jnull
  | jstr (s : String)
deriving DecidableEq, Repr

/-- JS truthiness used by `if (!title)` (app.js line 55): undefined,
null and the empty string are falsy; every other string is truthy. -/
def truthy : JsVal → Bool
  | .undef => false
  | .jnull => false
  | .jstr s => s != ""

/-- JS `description || ''` (app.js lines 62, 68, 83): a falsy value
yields the empty string; a truthy string yields itself. -/
def orEmpty : JsVal → String
  | .undef => ""
  | .jnull => ""
  | .jstr s => s

/-- The string payload of a JS value, for positions where the code has
already established truthiness (the title on the insert path). -/
def strOf : JsVal → String
  | .jstr s => s
  | _ => ""

/-- SQL bind value under the client escaping: undefined and null both
become SQL NULL; a string is passed verbatim. -/
def sqlOf : JsVal → Option String
  | .undef => none
  | .jnull => none
  | .jstr s => some s

/-- One row of the `tasks` table (schema of app.js lines 130-137).
`description` is a nullable TEXT column, hence an Option. -/
structure Row where
  id : Nat
  title : String
  description : Option String
  created_at : Nat
deriving DecidableEq, Repr

/-- The persistent store: the rows of the `tasks` table, the
AUTO_INCREMENT counter, and an abstract clock for CURRENT_TIMESTAMP. -/
structure Store where
  rows : List Row
  nextId : Nat
  clock : Nat
deriving DecidableEq, Repr

/-- A freshly created table: no rows, AUTO_INCREMENT at 1. -/
def initStore : Store := ⟨[], 1, 0⟩

/-- JSON values appearing in HTTP response bodies. -/
inductive JVal where
  | null
  | str (s : String)
  | num (n : Nat)
  | arr (xs : List JVal)
  | obj (fields : List (String × JVal))

/-- An HTTP response: status code and optional JSON body
(`res.status(204).end()` sends no body). -/
structure Resp where
  status : Nat
  body : Option JVal

/-- The flat error object every handler uses: a lone `error` message. -/
def errObj (msg : String) : JVal := .obj [("error", .str msg)]

/-- Field lookup in a JSON object body. -/
def objLookup (v : JVal) (k : String) : Option JVal :=
  match v with
  | .obj fields => fields.lookup k
  | _ => none

/-- How a row serializes in GET responses (`SELECT * FROM tasks`). -/
def rowToJson (r : Row) : JVal :=
  .obj [("id", .num r.id), ("title", .str r.title),
        ("description", match r.description with
          | none => .null
          | some s => .str s),
        ("created_at", .num r.created_at)]

/-- Value of the leading decimal digits of a character list. -/
def leadingDigitsVal : List Char → Nat → Nat
  | [], acc => acc
  | c :: cs, acc =>
      if c.isDigit then leadingDigitsVal cs (acc * 10 + (c.toNat - 48)) else acc

/-- MySQL coercion of a string path parameter for comparison against
the INT `id` column: the value of the leading decimal digits, 0 when
there are none. -/
def mysqlIdOfString (s : String) : Nat := leadingDigitsVal s.data 0

/-- The rows matched by `WHERE id = ?`. -/
def matchedRows (st : Store) (idn : Nat) : List Row :=
  st.rows.filter (fun r => r.id == idn)

/-- `INSERT INTO tasks (title, description) VALUES (?, ?)` (app.js
lines 60-63): appends a row with the next AUTO_INCREMENT id and the
current timestamp, returns the new store and `insertId`. -/
def insertTask (st : Store) (title desc : String) : Store × Nat :=
  (⟨st.rows ++ [⟨st.nextId, title, some desc, st.clock⟩],
    st.nextId + 1, st.clock + 1⟩, st.nextId)

/-- `UPDATE tasks SET title = ?, description = ? WHERE id = ?` (app.js
lines 81-84).  If no row matches, the statement succeeds with affected
count 0.  If a row matches and the title bind value is NULL, strict
mode rejects the statement (NOT NULL column) and nothing changes.
Otherwise all matched rows get the new title and description; the
affected count is the number of matched rows. -/
def updateTask (st : Store) (idn : Nat) (title : Option String)
    (desc : String) : Except String (Store × Nat) :=
  if (matchedRows st idn).length == 0 then .ok (st, 0)
  else
    match title with
    | none => .error "Column title cannot be null"
    | some t =>
        .ok ({ st with rows := st.rows.map (fun r =>
                 if r.id == idn then { r with title := t, description := some desc }
                 else r) },
             (matchedRows st idn).length)

/-- `DELETE FROM tasks WHERE id = ?` (app.js line 100): removes the
matched rows and reports how many were matched.  The AUTO_INCREMENT
counter is untouched. -/
def deleteRows (st : Store) (idn : Nat) : Store × Nat :=
  ({ st with rows := st.rows.filter (fun r => r.id != idn) },
   (matchedRows st idn).length)

/-- The store as the handlers see it: reachable and initialized with
state `st`, or erroring every query with a detail text. -/
inductive Db where
  | down (detail : String)
  | up (st : Store)
deriving DecidableEq, Repr

/-- GET /api/health (app.js lines 22-24). -/
def healthHandler : Resp := ⟨200, some (.obj [("status", .str "healthy")])⟩

/-- GET /api/tasks (app.js lines 27-35). -/
def listTasks (db : Db) : Db × Resp :=
  match db with
  | .down _ => (db, ⟨500, some (errObj "Failed to fetch tasks")⟩)
  | .up st => (db, ⟨200, some (.arr (st.rows.map rowToJson))⟩)

/-- GET /api/tasks/:id (app.js lines 38-49). -/
def getTask (db : Db) (idp : String) : Db × Resp :=
  match db with
  | .down _ => (db, ⟨500, some (errObj "Failed to fetch task")⟩)
  | .up st =>
      match matchedRows st (mysqlIdOfString idp) with
      | [] => (db, ⟨404, some (errObj "Task not found")⟩)
      | r :: _ => (db, ⟨200, some (rowToJson r)⟩)

/-- POST /api/tasks (app.js lines 52-74).  The truthiness check on the
title precedes any store access; the insert binds the raw title and
`description || ''`; the 201 body echoes `insertId`, the title and
`description || ''` and nothing else. -/
def postTask (db : Db) (title description : JsVal) : Db × Resp :=
  if truthy title = false then
    (db, ⟨400, some (errObj "Title is required")⟩)
  else
    match db with
    | .down _ => (db, ⟨500, some (errObj "Failed to create task")⟩)
    | .up st =>
        let t := strOf title
        let d := orEmpty description
        let res := insertTask st t d
        (.up res.1, ⟨201, some (.obj [("id", .num res.2),
                                      ("title", .str t),
                                      ("description", .str d)])⟩)

/-- Serialization of one field of a response object built from raw JS
values: an undefined field is dropped, null is kept as JSON null. -/
def jsField (k : String) (v : JsVal) : List (String × JVal) :=
  match v with
  | .undef => []
  | .jnull => [(k, .null)]
  | .jstr s => [(k, .str s)]

/-- PUT /api/tasks/:id (app.js lines 77-95).  No title validation; the
update binds the raw title (NULL when absent) and `description || ''`;
zero affected rows yields 404; any store error yields the generic 500;
the 200 body echoes the path id string and the raw body values. -/
def putTask (db : Db) (idp : String) (title description : JsVal) :
    Db × Resp :=
  match db with
  | .down _ => (db, ⟨500, some (errObj "Failed to update task")⟩)
  | .up st =>
      match updateTask st (mysqlIdOfString idp) (sqlOf title) (orEmpty description) with
      | .error _ => (db, ⟨500, some (errObj "Failed to update task")⟩)
      | .ok (st2, affected) =>
          if affected == 0 then (.up st2, ⟨404, some (errObj "Task not found")⟩)
          else (.up st2, ⟨200, some (.obj ([("id", .str idp)] ++
                   jsField "title" title ++ jsField "description" description))⟩)

/-- DELETE /api/tasks/:id (app.js lines 98-111): zero affected rows
yields 404, otherwise 204 with an empty body. -/
def deleteTask (db : Db) (idp : String) : Db × Resp :=
  match db with
  | .down _ => (db, ⟨500, some (errObj "Failed to delete task")⟩)
  | .up st =>
      let res := deleteRows st (mysqlIdOfString idp)
      if res.2 == 0 then (.up res.1, ⟨404, some (errObj "Task not found")⟩)
      else (.up res.1, ⟨204, none⟩)

/-- The SQL text of the CREATE DATABASE statement issued at startup
(app.js line 127): a template literal interpolating
`process.env.DB_NAME || 'tasksdb'` directly into the statement. -/
def createDbSql (dbNameEnv : Option String) : String :=
  "CREATE DATABASE IF NOT EXISTS " ++
    (match dbNameEnv with
     | none => "tasksdb"
     | some s => if s == "" then "tasksdb" else s)

/-- One client request against the task API surface. -/
inductive Op where
  | list
  | get (idp : String)
  | post (title description : JsVal)
  | put (idp : String) (title description : JsVal)
  | del (idp : String)

/-- The database state after one request is handled. -/
def applyOp (db : Db) : Op → Db
  | .list => (listTasks db).1
  | .get idp => (getTask db idp).1
  | .post t d => (postTask db t d).1
  | .put idp t d => (putTask db idp t d).1
  | .del idp => (deleteTask db idp).1

/-- The AUTO_INCREMENT counter of a database state. -/
def Db.nextIdOf : Db → Nat
  | .down _ => 0
  | .up st => st.nextId

/-- The insertId values returned by the successful creates of a
request sequence, in order. -/
def createdIds : Db → List Op → List Nat
  | _, [] => []
  | db, op :: ops =>
      match db, op with
      | .up st, .post t _ =>
          if truthy t then st.nextId :: createdIds (applyOp db op) ops
          else createdIds (applyOp db op) ops
      | _, _ => createdIds (applyOp db op) ops

/-- Startup actions at process start (app.js lines 147-152):
app.listen brings the HTTP listener up; its callback then calls
initDb. -/
inductive StartAction where
  | listen
  | initDbCall
deriving DecidableEq, Repr

/-- The order of actions at process start: the listener comes up
first and unconditionally; schema initialization starts afterwards
from the listen callback and never gates the listener. -/
def serverStart : List StartAction := [.listen, .initDbCall]

/-- Whether initDb attempt n occurs (app.js lines 140-144): attempt 0
always runs from the listen callback; attempt n+1 runs exactly when
attempt n ran and failed, via setTimeout(initDb, 5000). -/
def attemptOccurs (failed : Nat → Bool) : Nat → Bool
  | 0 => true
  | n + 1 => attemptOccurs failed n && failed n

/-- The time of initDb attempt n relative to the listen callback:
every retry is scheduled a fixed 5000 ms after the failed attempt. -/
def attemptTime : Nat → Nat
  | 0 => 0
  | n + 1 => attemptTime n + 5000

/- ### Helper lemmas about the store operations -/

theorem applyOp_down (d : String) (op : Op) : applyOp (.down d) op = .down d := by
  cases op with
  | list => rfl
  | get idp => rfl
  | post t dd =>
      simp only [applyOp, postTask]
      split <;> rfl
  | put idp t dd => rfl
  | del idp => rfl

theorem nextIdOf_applyOp (db : Db) (op : Op) :
    db.nextIdOf ≤ (applyOp db op).nextIdOf := by
  cases db with
  | down d => rw [applyOp_down]
  | up st =>
    cases op with
    | list => simp [applyOp, listTasks, Db.nextIdOf]
    | get idp =>
        simp only [applyOp, getTask]
        split <;> simp [Db.nextIdOf]
    | post t d =>
        simp only [applyOp, postTask]
        split
        · simp [Db.nextIdOf]
        · simp [insertTask, Db.nextIdOf]
    | put idp t d =>
        simp only [applyOp, putTask, updateTask]
        by_cases hc : ((matchedRows st (mysqlIdOfString idp)).length == 0) = true
        · rw [if_pos hc]
          simp [Db.nextIdOf]
        · rw [if_neg hc]
          cases t with
          | undef => simp [sqlOf, Db.nextIdOf]
          | jnull => simp [sqlOf, Db.nextIdOf]
          | jstr s =>
              simp only [sqlOf]
              split <;> simp [Db.nextIdOf]
    | del idp =>
        simp only [applyOp, deleteTask, deleteRows]
        split <;> simp [Db.nextIdOf]

theorem postTask_nextIdOf {st : Store} {t d : JsVal} (htr : truthy t = true) :
    (applyOp (.up st) (.post t d)).nextIdOf = st.nextId + 1 := by
  simp [applyOp, postTask, htr, insertTask, Db.nextIdOf]

theorem createdIds_lower (ops : List Op) :
    ∀ (db : Db), ∀ c ∈ createdIds db ops, db.nextIdOf ≤ c := by
  induction ops with
  | nil => intro db c hc; simp [createdIds] at hc
  | cons op ops ih =>
    intro db c hc
    cases db with
    | down d =>
        cases op <;>
          (simp only [createdIds] at hc
           exact le_trans (nextIdOf_applyOp _ _) (ih _ c hc))
    | up st =>
      cases op with
      | post t dd =>
          by_cases htr : truthy t
          · rw [createdIds, if_pos htr] at hc
            rcases List.mem_cons.mp hc with hc | hc
            · simp [Db.nextIdOf, hc]
            · exact le_trans (nextIdOf_applyOp _ _) (ih _ c hc)
          · rw [createdIds, if_neg htr] at hc
            exact le_trans (nextIdOf_applyOp _ _) (ih _ c hc)
      | list =>
          simp only [createdIds] at hc
          exact le_trans (nextIdOf_applyOp _ _) (ih _ c hc)
      | get idp =>
          simp only [createdIds] at hc
          exact le_trans (nextIdOf_applyOp _ _) (ih _ c hc)
      | put idp t dd =>
          simp only [createdIds] at hc
          exact le_trans (nextIdOf_applyOp _ _) (ih _ c hc)
      | del idp =>
          simp only [createdIds] at hc
          exact le_trans (nextIdOf_applyOp _ _) (ih _ c hc)

theorem attemptOccurs_of_all_failed (failed : Nat → Bool) :
    ∀ n, (∀ k, k ≤ n → failed k = true) → attemptOccurs failed (n + 1) = true := by
  intro n
  induction n with
  | zero =>
      intro h
      simp [attemptOccurs, h 0 (Nat.le_refl 0)]
  | succ m ih =>
      intro h
      rw [attemptOccurs, Bool.and_eq_true]
      exact ⟨ih (fun k hk => h k (Nat.le_trans hk (Nat.le_succ m))),
             h (m + 1) (Nat.le_refl _)⟩

theorem matchedRows_eq_nil {st : Store} {idn : Nat}
    (h : ∀ r ∈ st.rows, r.id ≠ idn) : matchedRows st idn = [] := by
  simp only [matchedRows, List.filter_eq_nil_iff]
  intro r hr
  simpa using h r hr

theorem matchedRows_length_ne_zero {st : Store} {idn : Nat}
    (h : idn ∈ st.rows.map Row.id) : (matchedRows st idn).length ≠ 0 := by
  obtain ⟨r, hr, hid⟩ := List.mem_map.mp h
  have hmem : r ∈ matchedRows st idn := List.mem_filter.mpr ⟨hr, by simp [hid]⟩
  intro hc
  exact List.ne_nil_of_mem hmem (List.length_eq_zero.mp hc)

/-- The rows visible in a database state (none when unreachable). -/
def Db.rowsOf : Db → List Row
  | .down _ => []
  | .up st => st.rows

theorem filter_ne_id_eq_self {st : Store} {idn : Nat}
    (h : ∀ r ∈ st.rows, r.id ≠ idn) :
    st.rows.filter (fun r => r.id != idn) = st.rows :=
  List.filter_eq_self.mpr (fun r hr => by simpa using h r hr)

theorem deleteTask_absent {st : Store} {idp : String}
    (h : ∀ r ∈ st.rows, r.id ≠ mysqlIdOfString idp) :
    deleteTask (.up st) idp = (.up st, ⟨404, some (errObj "Task not found")⟩) := by
  have hnil : matchedRows st (mysqlIdOfString idp) = [] := matchedRows_eq_nil h
  simp [deleteTask, deleteRows, hnil, filter_ne_id_eq_self h]

theorem deleteTask_fst (st : Store) (idp : String) :
    (deleteTask (.up st) idp).1 =
      .up { st with rows := st.rows.filter (fun r => r.id != mysqlIdOfString idp) } := by
  simp only [deleteTask, deleteRows]
  split <;> rfl

/-- A small populated store used in the concrete witnesses: one task,
id 1, next AUTO_INCREMENT value 2. -/
def sampleStore : Store := ⟨[⟨1, "A", some "B", 0⟩], 2, 1⟩

theorem putTask_fst_matched {st : Store} {idp t : String} {d : JsVal}
    (hlen : (matchedRows st (mysqlIdOfString idp)).length ≠ 0) :
    (putTask (.up st) idp (.jstr t) d).1 =
      .up { st with rows := st.rows.map (fun r =>
              if r.id = mysqlIdOfString idp then
                { r with title := t, description := some (orEmpty d) }
              else r) } := by
  simp [putTask, updateTask, sqlOf, hlen]

theorem putTask_omitted_description_stored {st : Store} {idp : String} {t : String}
    (hlen : (matchedRows st (mysqlIdOfString idp)).length ≠ 0) :
    ∀ r ∈ ((putTask (.up st) idp (.jstr t) .undef).1).rowsOf,
      r.id = mysqlIdOfString idp → r.description = some "" := by
  intro r hr hrid
  rw [putTask_fst_matched hlen] at hr
  simp only [Db.rowsOf] at hr
  obtain ⟨r0, hr0, rfl⟩ := List.mem_map.mp hr
  by_cases hc : r0.id = mysqlIdOfString idp
  · simp [hc, orEmpty]
  · rw [if_neg hc] at hrid
    exact absurd hrid hc

/- ### Claim theorems -/

/-- Claim C1, counterexample to the claim as stated: on the concrete
input of the spec scenario (POST title "A", description "B" against a
fresh store) the server does answer 201, but the response body is only
id, title and description — it carries no created_at field, although
the inserted row received one. -/
theorem c1_counterexample :
    (postTask (.up initStore) (.jstr "A") (.jstr "B")).2.status = 201 ∧
    (postTask (.up initStore) (.jstr "A") (.jstr "B")).2.body =
      some (.obj [("id", .num 1), ("title", .str "A"), ("description", .str "B")]) ∧
    objLookup (.obj [("id", .num 1), ("title", .str "A"), ("description", .str "B")])
      "created_at" = none ∧
    (postTask (.up initStore) (.jstr "A") (.jstr "B")).1 =
      .up ⟨[⟨1, "A", some "B", 0⟩], 2, 1⟩ :=
  ⟨rfl, rfl, rfl, rfl⟩

/-- Claim C1, amended: a create request with a non-empty title answers
201 with the store-assigned id, the title, and the description; the
store sets created_at on the inserted row, but the response body does
not include it. -/
theorem c1_create_response (st : Store) (t : String) (ht : t ≠ "") (d : JsVal) :
    postTask (.up st) (.jstr t) d =
      (.up ⟨st.rows ++ [⟨st.nextId, t, some (orEmpty d), st.clock⟩],
            st.nextId + 1, st.clock + 1⟩,
       ⟨201, some (.obj [("id", .num st.nextId), ("title", .str t),
                         ("description", .str (orEmpty d))])⟩) ∧
    objLookup (.obj [("id", .num st.nextId), ("title", .str t),
                     ("description", .str (orEmpty d))]) "created_at" = none := by
  constructor
  · simp [postTask, truthy, strOf, insertTask, ht]
  · simp [objLookup, List.lookup]

theorem c1_create_response_witness :
    postTask (.up initStore) (.jstr "A") (.jstr "B") =
      (.up ⟨initStore.rows ++ [⟨initStore.nextId, "A", some (orEmpty (.jstr "B")),
                               initStore.clock⟩],
            initStore.nextId + 1, initStore.clock + 1⟩,
       ⟨201, some (.obj [("id", .num initStore.nextId), ("title", .str "A"),
                         ("description", .str (orEmpty (.jstr "B")))])⟩) ∧
    objLookup (.obj [("id", .num initStore.nextId), ("title", .str "A"),
                     ("description", .str (orEmpty (.jstr "B")))]) "created_at" = none :=
  c1_create_response initStore "A" (by decide) (.jstr "B")

/-- Claim C2, counterexample to the claim as stated: a whitespace-only
title such as a single space is a truthy JS string, so the create
handler accepts it: the server answers 201 and a row is inserted. -/
theorem c2_counterexample :
    (postTask (.up initStore) (.jstr " ") .undef).2.status = 201 ∧
    (postTask (.up initStore) (.jstr " ") .undef).1 =
      .up ⟨[⟨1, " ", some "", 0⟩], 2, 1⟩ :=
  ⟨rfl, rfl⟩

/-- Claim C2, amended: a create request whose title is missing, null,
or the empty string answers 400 with the fixed error body before any
store access — the database state (even an unreachable one) is passed
through untouched, so no row is inserted. -/
theorem c2_create_falsy_title (db : Db) (title d : JsVal)
    (h : truthy title = false) :
    postTask db title d = (db, ⟨400, some (errObj "Title is required")⟩) := by
  simp [postTask, h]

theorem c2_create_falsy_title_witness :
    postTask (.up initStore) (.jstr "") .undef =
      (.up initStore, ⟨400, some (errObj "Title is required")⟩) :=
  c2_create_falsy_title (.up initStore) (.jstr "") .undef (by decide)

/-- Claim C9: a PUT on an existing id whose body lacks the title binds
SQL NULL into the NOT NULL title column; the store rejects the update,
the handler catches the error as the generic 500 with the fixed
message (not a 400), and the store state is unchanged. -/
theorem c9_update_missing_title (st : Store) (idp : String) (d : JsVal)
    (h : mysqlIdOfString idp ∈ st.rows.map Row.id) :
    putTask (.up st) idp .undef d =
      (.up st, ⟨500, some (errObj "Failed to update task")⟩) := by
  have hlen := matchedRows_length_ne_zero h
  simp [putTask, updateTask, sqlOf, hlen]

theorem c9_update_missing_title_witness :
    putTask (.up ⟨[⟨1, "A", some "B", 0⟩], 2, 1⟩) "1" .undef .undef =
      (.up ⟨[⟨1, "A", some "B", 0⟩], 2, 1⟩,
       ⟨500, some (errObj "Failed to update task")⟩) :=
  c9_update_missing_title ⟨[⟨1, "A", some "B", 0⟩], 2, 1⟩ "1" .undef (by decide)

/-- Claim C5: over the life of the store, the insertId values returned
by successful creates are strictly increasing in creation order, hence
pairwise distinct; since the AUTO_INCREMENT counter is never lowered
by updates or deletes, an id freed by a delete is never handed out
again.  This holds for any request sequence against any starting
state, in particular a fresh table. -/
theorem c5_id_allocation (db : Db) (ops : List Op) :
    List.Pairwise (· < ·) (createdIds db ops) ∧ (createdIds db ops).Nodup := by
  have hpw : ∀ (db : Db), List.Pairwise (· < ·) (createdIds db ops) := by
    induction ops with
    | nil => intro db; simp [createdIds]
    | cons op ops ih =>
      intro db
      cases db with
      | down d =>
          cases op <;> (simp only [createdIds]; exact ih _)
      | up st =>
        cases op with
        | post t dd =>
            by_cases htr : truthy t
            · simp only [createdIds, if_pos htr]
              refine List.Pairwise.cons ?_ (ih _)
              intro c hc
              have h1 := createdIds_lower ops _ c hc
              have h2 := @postTask_nextIdOf st t dd htr
              omega
            · simp only [createdIds, if_neg htr]
              exact ih _
        | list => simp only [createdIds]; exact ih _
        | get idp => simp only [createdIds]; exact ih _
        | put idp t dd => simp only [createdIds]; exact ih _
        | del idp => simp only [createdIds]; exact ih _
  exact ⟨hpw db, (hpw db).imp (fun h => Nat.ne_of_lt h)⟩

/-- Claim C7: at process start the listener comes up first and
unconditionally, with schema initialization called afterwards from the
listen callback; while every attempt up to n fails, attempt n+1 still
occurs, exactly 5000 ms after attempt n (unbounded retries at a fixed
delay); and with the store unreachable or uninitialized, every handler
answers its fixed generic 500 body, independent of the failure detail,
so initialization failures never reach HTTP clients. -/
theorem c7_startup_retry (failed : Nat → Bool) (n : Nat)
    (h : ∀ k, k ≤ n → failed k = true) :
    serverStart = [.listen, .initDbCall] ∧
    attemptOccurs failed (n + 1) = true ∧
    attemptTime (n + 1) = attemptTime n + 5000 ∧
    (∀ detail idp t d,
      listTasks (.down detail) =
        (.down detail, ⟨500, some (errObj "Failed to fetch tasks")⟩) ∧
      getTask (.down detail) idp =
        (.down detail, ⟨500, some (errObj "Failed to fetch task")⟩) ∧
      (truthy t = true →
        postTask (.down detail) t d =
          (.down detail, ⟨500, some (errObj "Failed to create task")⟩)) ∧
      putTask (.down detail) idp t d =
        (.down detail, ⟨500, some (errObj "Failed to update task")⟩) ∧
      deleteTask (.down detail) idp =
        (.down detail, ⟨500, some (errObj "Failed to delete task")⟩)) := by
  refine ⟨rfl, attemptOccurs_of_all_failed failed n h, rfl, ?_⟩
  intro detail idp t d
  refine ⟨rfl, rfl, ?_, rfl, rfl⟩
  intro htr
  simp [postTask, htr]

theorem c7_startup_retry_witness :
    serverStart = [.listen, .initDbCall] ∧
    attemptOccurs (fun _ => true) (0 + 1) = true ∧
    attemptTime (0 + 1) = attemptTime 0 + 5000 ∧
    (∀ detail idp t d,
      listTasks (.down detail) =
        (.down detail, ⟨500, some (errObj "Failed to fetch tasks")⟩) ∧
      getTask (.down detail) idp =
        (.down detail, ⟨500, some (errObj "Failed to fetch task")⟩) ∧
      (truthy t = true →
        postTask (.down detail) t d =
          (.down detail, ⟨500, some (errObj "Failed to create task")⟩)) ∧
      putTask (.down detail) idp t d =
        (.down detail, ⟨500, some (errObj "Failed to update task")⟩) ∧
      deleteTask (.down detail) idp =
        (.down detail, ⟨500, some (errObj "Failed to delete task")⟩)) :=
  c7_startup_retry (fun _ => true) 0 (fun _ _ => rfl)

/-- Claim C10: the CREATE DATABASE statement is built by direct string
interpolation of the DB_NAME environment value: for every non-empty
value, the SQL text is the fixed prefix followed by that value
verbatim (the value is a suffix of the statement), so distinct
environment values yield distinct statements. -/
theorem c10_dbname_interpolated (s : String) (h : s ≠ "") :
    createDbSql (some s) = "CREATE DATABASE IF NOT EXISTS " ++ s ∧
    s.data <:+ (createDbSql (some s)).data := by
  have heq : createDbSql (some s) = "CREATE DATABASE IF NOT EXISTS " ++ s := by
    simp [createDbSql, h]
  refine ⟨heq, ?_⟩
  rw [heq]
  exact ⟨("CREATE DATABASE IF NOT EXISTS ").data, rfl⟩

/-- Claim C3: when the path id matches no persisted task, GET answers
404 with the fixed error body and the store untouched; PUT answers 404
for every body (the single UPDATE statement matches zero rows, so its
affected-row count is 0 and no constraint is ever checked) with the
store untouched; DELETE answers 404 with the store untouched; and a
repeated DELETE of the same id after any first DELETE answers 404,
since the id no longer matches. -/
theorem c3_not_found (st : Store) (idp : String) (title d : JsVal)
    (h : ∀ r ∈ st.rows, r.id ≠ mysqlIdOfString idp) :
    getTask (.up st) idp = (.up st, ⟨404, some (errObj "Task not found")⟩) ∧
    putTask (.up st) idp title d =
      (.up st, ⟨404, some (errObj "Task not found")⟩) ∧
    deleteTask (.up st) idp = (.up st, ⟨404, some (errObj "Task not found")⟩) ∧
    (∀ st0 : Store,
      deleteTask (deleteTask (.up st0) idp).1 idp =
        ((deleteTask (.up st0) idp).1, ⟨404, some (errObj "Task not found")⟩)) := by
  have hnil : matchedRows st (mysqlIdOfString idp) = [] := matchedRows_eq_nil h
  refine ⟨?_, ?_, deleteTask_absent h, ?_⟩
  · simp [getTask, hnil]
  · simp [putTask, updateTask, hnil]
  · intro st0
    rw [deleteTask_fst st0 idp]
    have habs : ∀ r ∈ st0.rows.filter (fun r => r.id != mysqlIdOfString idp),
        r.id ≠ mysqlIdOfString idp := by
      intro r hr
      simpa using (List.mem_filter.mp hr).2
    exact deleteTask_absent habs

theorem c3_not_found_witness :
    getTask (.up sampleStore) "7" =
      (.up sampleStore, ⟨404, some (errObj "Task not found")⟩) ∧
    putTask (.up sampleStore) "7" (.jstr "T") (.jstr "D") =
      (.up sampleStore, ⟨404, some (errObj "Task not found")⟩) ∧
    deleteTask (.up sampleStore) "7" =
      (.up sampleStore, ⟨404, some (errObj "Task not found")⟩) ∧
    (∀ st0 : Store,
      deleteTask (deleteTask (.up st0) "7").1 "7" =
        ((deleteTask (.up st0) "7").1, ⟨404, some (errObj "Task not found")⟩)) :=
  c3_not_found sampleStore "7" (.jstr "T") (.jstr "D") (by decide)

/-- Claim C4: the update handler performs no title validation: a PUT
with an empty-string title on an existing id answers 200, and the
matched row is persisted with the blank title (and description ||
empty string), unlike create where an empty title is rejected. -/
theorem c4_update_blank_title (st : Store) (idp : String) (d : JsVal)
    (h : mysqlIdOfString idp ∈ st.rows.map Row.id) :
    (putTask (.up st) idp (.jstr "") d).2.status = 200 ∧
    (putTask (.up st) idp (.jstr "") d).1 =
      .up { st with rows := st.rows.map (fun r =>
              if r.id = mysqlIdOfString idp then
                { r with title := "", description := some (orEmpty d) }
              else r) } ∧
    (∀ r ∈ ((putTask (.up st) idp (.jstr "") d).1).rowsOf,
      r.id = mysqlIdOfString idp → r.title = "") := by
  have hlen := matchedRows_length_ne_zero h
  refine ⟨?_, putTask_fst_matched hlen, ?_⟩
  · simp [putTask, updateTask, sqlOf, hlen]
  · intro r hr hid
    rw [putTask_fst_matched hlen] at hr
    simp only [Db.rowsOf] at hr
    obtain ⟨r0, hr0, rfl⟩ := List.mem_map.mp hr
    by_cases hc : r0.id = mysqlIdOfString idp
    · simp [hc]
    · rw [if_neg hc] at hid
      exact absurd hid hc

theorem c4_update_blank_title_witness :
    (putTask (.up sampleStore) "1" (.jstr "") (.jstr "D")).2.status = 200 ∧
    (putTask (.up sampleStore) "1" (.jstr "") (.jstr "D")).1 =
      .up { sampleStore with rows := sampleStore.rows.map (fun r =>
              if r.id = mysqlIdOfString "1" then
                { r with title := "", description := some (orEmpty (.jstr "D")) }
              else r) } ∧
    (∀ r ∈ ((putTask (.up sampleStore) "1" (.jstr "") (.jstr "D")).1).rowsOf,
      r.id = mysqlIdOfString "1" → r.title = "") :=
  c4_update_blank_title sampleStore "1" (.jstr "D") (by decide)

/-- Claim C6: when the request body omits the description, the value
bound to the store is the empty string, never NULL: a create inserts
the row with description equal to some empty string, and an update of
an existing id persists description equal to some empty string on the
matched row. -/
theorem c6_description_omitted (st : Store) (t : String) (ht : t ≠ "")
    (idp : String) (hid : mysqlIdOfString idp ∈ st.rows.map Row.id) :
    (postTask (.up st) (.jstr t) .undef).1 =
      .up ⟨st.rows ++ [⟨st.nextId, t, some "", st.clock⟩],
           st.nextId + 1, st.clock + 1⟩ ∧
    (∀ r ∈ ((putTask (.up st) idp (.jstr t) .undef).1).rowsOf,
      r.id = mysqlIdOfString idp → r.description = some "") := by
  have hlen := matchedRows_length_ne_zero hid
  exact ⟨by simp [postTask, truthy, strOf, orEmpty, insertTask, ht],
         putTask_omitted_description_stored hlen⟩

theorem c6_description_omitted_witness :
    (postTask (.up sampleStore) (.jstr "T") .undef).1 =
      .up ⟨sampleStore.rows ++ [⟨sampleStore.nextId, "T", some "", sampleStore.clock⟩],
           sampleStore.nextId + 1, sampleStore.clock + 1⟩ ∧
    (∀ r ∈ ((putTask (.up sampleStore) "1" (.jstr "T") .undef).1).rowsOf,
      r.id = mysqlIdOfString "1" → r.description = some "") :=
  c6_description_omitted sampleStore "T" (by decide) "1" (by decide)

/-- Claim C8: the 200 body of a successful update echoes the request,
not the persisted row: the id field is the path parameter as a JSON
string (a string value, never the stored integer), the description
field is absent when the request omitted it (although the store
received the empty string for that row), a null description is echoed
as JSON null, and no created_at field is ever included. -/
theorem c8_update_response (st : Store) (idp : String) (t : String)
    (hid : mysqlIdOfString idp ∈ st.rows.map Row.id) :
    (putTask (.up st) idp (.jstr t) .undef).2 =
      ⟨200, some (.obj [("id", .str idp), ("title", .str t)])⟩ ∧
    objLookup (.obj [("id", .str idp), ("title", .str t)]) "description" = none ∧
    objLookup (.obj [("id", .str idp), ("title", .str t)]) "created_at" = none ∧
    (∀ n : Nat, JVal.str idp ≠ JVal.num n) ∧
    (∀ r ∈ ((putTask (.up st) idp (.jstr t) .undef).1).rowsOf,
      r.id = mysqlIdOfString idp → r.description = some "") ∧
    (putTask (.up st) idp (.jstr t) .jnull).2 =
      ⟨200, some (.obj [("id", .str idp), ("title", .str t),
                        ("description", .null)])⟩ := by
  have hlen := matchedRows_length_ne_zero hid
  refine ⟨?_, ?_, ?_, ?_, putTask_omitted_description_stored hlen, ?_⟩
  · simp [putTask, updateTask, sqlOf, orEmpty, hlen, jsField]
  · simp [objLookup, List.lookup]
  · simp [objLookup, List.lookup]
  · intro n hcontra
    exact JVal.noConfusion hcontra
  · simp [putTask, updateTask, sqlOf, orEmpty, hlen, jsField]

theorem c8_update_response_witness :
    (putTask (.up sampleStore) "1" (.jstr "A2") .undef).2 =
      ⟨200, some (.obj [("id", .str "1"), ("title", .str "A2")])⟩ ∧
    objLookup (.obj [("id", .str "1"), ("title", .str "A2")]) "description" = none ∧
    objLookup (.obj [("id", .str "1"), ("title", .str "A2")]) "created_at" = none ∧
    (∀ n : Nat, JVal.str "1" ≠ JVal.num n) ∧
    (∀ r ∈ ((putTask (.up sampleStore) "1" (.jstr "A2") .undef).1).rowsOf,
      r.id = mysqlIdOfString "1" → r.description = some "") ∧
    (putTask (.up sampleStore) "1" (.jstr "A2") .jnull).2 =
      ⟨200, some (.obj [("id", .str "1"), ("title", .str "A2"),
                        ("description", .null)])⟩ :=
  c8_update_response sampleStore "1" "A2" (by decide)

theorem c10_dbname_interpolated_witness :
    createDbSql (some "tasksdb; DROP DATABASE mysql") =
      "CREATE DATABASE IF NOT EXISTS " ++ "tasksdb; DROP DATABASE mysql" ∧
    ("tasksdb; DROP DATABASE mysql").data <:+
      (createDbSql (some "tasksdb; DROP DATABASE mysql")).data :=
  c10_dbname_interpolated "tasksdb; DROP DATABASE mysql" (by decide)

end TaskApp
